import Mathlib

/-!
Verification of the natural-language specification of `mux/src/ssh.rs`
(the SSH session bootstrap bridge) against a shallow embedding of that
file's code.

The embedding models the code of `mux/src/ssh.rs` faithfully; external
collaborators that live elsewhere in the repository (termwiz's
`unicode_column_width`, wezterm-ssh's `SshPty`) are modelled from the
spec where noted.  Channels are modelled by passing each receive
attempt's outcome as an explicit parameter, and the four delivery sends
plus UI output are recorded in an explicit trace.
-/

namespace Mux

/-! ## Password prompt host (`PasswordPromptHost::highlight_line`) -/

/-- Modelled from the spec: a grapheme together with its display width in
columns, as measured by termwiz's `unicode_column_width` (code of this
repository outside `src/`).  Ordinary characters are one column wide;
wide glyphs (CJK, emoji) are two. -/
structure Glyph where
  width : Nat
deriving DecidableEq

/-- Modelled from the spec: `unicode_column_width` returns the display
width of a string in terminal columns, the sum of its glyphs' widths. -/
def unicode_column_width (line : List Glyph) : Nat :=
  (line.map Glyph.width).sum

/-- The fixed placeholder glyph used to mask password input (the key
emoji, a wide glyph occupying two display columns). -/
def placeholder : List Glyph := [⟨2⟩]

/-- One element of the line editor's highlighted output. -/
inductive OutputElement where
  | text (content : List Glyph)
deriving DecidableEq

/-- The relevant state of `PasswordPromptHost` (history is irrelevant to
highlighting). -/
structure PasswordPromptHost where
  echo : Bool
deriving DecidableEq

/-- Embedding of `PasswordPromptHost::highlight_line`: with echo on, the
line itself and the given cursor position; with echo off, one placeholder
element per display column of the input and a cursor column rescaled by
the placeholder's width. -/
def PasswordPromptHost.highlight_line (self : PasswordPromptHost)
    (line : List Glyph) (cursor_position : Nat) : List OutputElement × Nat :=
  if self.echo then
    ([OutputElement.text line], cursor_position)
  else
    (List.replicate (unicode_column_width line) (OutputElement.text placeholder),
      unicode_column_width placeholder * cursor_position)

/-! ## Splitting a prompt on newlines (`prompt.prompt.split('\n')`) -/

/-- Embedding of Rust's `str::split('\n')` on a character list: splitting
the empty string yields one empty segment, and every separator starts a
new segment. -/
def splitNLChars : List Char → List (List Char)
  | [] => [[]]
  | c :: rest =>
    if c = '\n' then [] :: splitNLChars rest
    else
      match splitNLChars rest with
      | [] => [[c]]
      | s :: ss => (c :: s) :: ss

/-- Splitting a string on the newline character, as
`prompt.prompt.split('\n').collect::<Vec<_>>()` does. -/
def splitNL (s : String) : List String :=
  (splitNLChars s.data).map (fun cs => String.mk cs)

/-- The line-editor prompt extracted from a raw prompt text: the last
segment of the newline split (`prompt_lines.pop().unwrap()`). -/
def editorPromptOf (p : String) : Option String :=
  (splitNL p).getLast?

/-! ## Session bootstrap orchestrator (`connect_ssh_session`) -/

/-- Outcome of one `editor.read_line` call: an editor error (propagated
by `?`), a cancelled read (`Ok(None)`), or an entered line. -/
inductive ReadResult where
  | err (msg : String)
  | cancelled
  | line (s : String)
deriving DecidableEq

/-- One authentication prompt (`wezterm_ssh` prompt): its raw text,
possibly containing newlines, and whether input echoes. -/
structure Prompt where
  prompt : String
  echo : Bool
deriving DecidableEq

/-- An `Authenticate` session event, carrying the line-editor outcomes
that the reads performed for its prompts will observe, in order. -/
structure AuthEvt where
  username : String
  instructions : String
  prompts : List Prompt
  responses : List ReadResult
deriving DecidableEq

/-- A `HostVerify` session event together with the outcome of the
`Enter [y/n]>` line-editor read. -/
structure VerifyEvt where
  message : String
  response : ReadResult
deriving DecidableEq

/-- The protocol events consumed by `connect_ssh_session`. -/
inductive SessionEvent where
  | banner (b : Option String)
  | hostVerify (v : VerifyEvt)
  | authenticate (a : AuthEvt)
  | error (msg : String)
  | authenticated
deriving DecidableEq

/-- Observable actions of the orchestrator: rendered output lines, the
two answer callbacks, and the four delivery-channel sends. -/
inductive TraceEv where
  | outputLine (s : String)
  | verifyAnswer (ok : Bool)
  | authAnswer (answers : List String)
  | sendWriter
  | sendReader
  | sendPty
  | sendChild
deriving DecidableEq

/-- Result of a `connect_ssh_session` run: the returned value, the trace
of observable actions, whether an `Authenticated` event was processed,
and whether the run ended because the event stream was exhausted. -/
structure OrchOutput where
  result : Except String Unit
  trace : List TraceEv
  reachedAuth : Bool
  exhausted : Bool

/-- Prepend already-performed actions to a run's trace. -/
def OrchOutput.prepend (ts : List TraceEv) (o : OrchOutput) : OrchOutput :=
  { o with trace := ts ++ o.trace }

/-- The `"y" | "Y" | "yes" | "YES"` match arm of the host-verify
handler. -/
def yesNo (l : String) : Bool :=
  l = "y" || l = "Y" || l = "yes" || l = "YES"

/-- Embedding of the per-prompt loop of the `Authenticate` arm: for each
prompt, split its text on newlines, render all but the last segment, and
read one line with the last segment as the editor prompt; an editor error
aborts with that error, a cancelled read aborts with
`"Authentication was cancelled"`, otherwise the answers accumulate in
order.  A missing response models the editor failing outright.
`promptOutputs` is the rendering step: the prompt text is split on
newlines, the last segment becomes the editor prompt, and the segments
before it are rendered as output lines. -/
def promptOutputs (p : Prompt) : List TraceEv :=
  ((splitNL p.prompt).dropLast).map TraceEv.outputLine

/-- Embedding of the per-prompt loop of the `Authenticate` arm, over the
prompts and the responses their reads observe. -/
def runPrompts : List Prompt → List ReadResult → List TraceEv × Except String (List String)
  | [], _ => ([], Except.ok [])
  | p :: _, [] => (promptOutputs p, Except.error "editor failed")
  | p :: _, ReadResult.err e :: _ => (promptOutputs p, Except.error e)
  | p :: _, ReadResult.cancelled :: _ =>
    (promptOutputs p, Except.error "Authentication was cancelled")
  | p :: ps, ReadResult.line l :: rs =>
    (promptOutputs p ++ (runPrompts ps rs).1,
      (runPrompts ps rs).2.map (fun ans => l :: ans))

/-- The `Authenticate` arm of the orchestrator loop: the lines rendered
before the prompts run — the username and the instructions, each only
when non-empty. -/
def authHeader (a : AuthEvt) : List TraceEv :=
  (if a.username = "" then [] else [TraceEv.outputLine ("Authentication for " ++ a.username)])
    ++ (if a.instructions = "" then [] else [TraceEv.outputLine a.instructions])

/-- The `Authenticate` arm of the orchestrator loop, continued: given
what the prompt loop rendered and produced, either abort with the prompt
failure or send the collected answers and continue with the rest of the
run. -/
def handleAuthRes (a : AuthEvt) (ts : List TraceEv) (res : Except String (List String))
    (rest : OrchOutput) : OrchOutput :=
  match res with
  | Except.error e => ⟨Except.error e, authHeader a ++ ts, false, false⟩
  | Except.ok answers => rest.prepend (authHeader a ++ ts ++ [TraceEv.authAnswer answers])

/-- The `Authenticate` arm of the orchestrator loop: run the prompts,
then dispatch on their outcome. -/
def handleAuth (a : AuthEvt) (rest : OrchOutput) : OrchOutput :=
  handleAuthRes a (runPrompts a.prompts a.responses).1 (runPrompts a.prompts a.responses).2
    rest

/-- The `HostVerify` arm of the orchestrator loop: render the message,
read a yes/no line (an editor error aborts the run, a cancelled read
counts as "no"), and send the boolean answer. -/
def handleVerify (v : VerifyEvt) (rest : OrchOutput) : OrchOutput :=
  match v.response with
  | ReadResult.err e => ⟨Except.error e, [TraceEv.outputLine v.message], false, false⟩
  | ReadResult.cancelled =>
    rest.prepend [TraceEv.outputLine v.message, TraceEv.verifyAnswer false]
  | ReadResult.line l =>
    rest.prepend [TraceEv.outputLine v.message, TraceEv.verifyAnswer (yesNo l)]

/-- Embedding of the event loop of `connect_ssh_session`.  `ptyOk` is the
outcome of the `request_pty` call made on `Authenticated` (modelled from
the spec as an external operation that either succeeds or fails).  The
loop body mirrors the source: `Banner` renders, `HostVerify` reads a
yes/no line and answers, `Authenticate` runs the prompts, `Error` renders
and continues, and `Authenticated` on PTY success delivers writer, then
reader, then PTY, then child, and returns; on PTY failure it renders the
failure and breaks, after which the function returns `Ok(())`.  When the
stream is exhausted the function likewise returns `Ok(())`. -/
def runEvents (ptyOk : Bool) : List SessionEvent → OrchOutput
  | [] => ⟨Except.ok (), [], false, true⟩
  | SessionEvent.banner (some s) :: evs =>
    (runEvents ptyOk evs).prepend [TraceEv.outputLine s]
  | SessionEvent.banner none :: evs => runEvents ptyOk evs
  | SessionEvent.hostVerify v :: evs => handleVerify v (runEvents ptyOk evs)
  | SessionEvent.authenticate a :: evs => handleAuth a (runEvents ptyOk evs)
  | SessionEvent.error msg :: evs =>
    (runEvents ptyOk evs).prepend [TraceEv.outputLine ("Error: " ++ msg)]
  | SessionEvent.authenticated :: _ =>
    if ptyOk then
      ⟨Except.ok (),
        [TraceEv.sendWriter, TraceEv.sendReader, TraceEv.sendPty, TraceEv.sendChild],
        true, false⟩
    else
      ⟨Except.ok (), [TraceEv.outputLine "Failed to spawn command"], true, false⟩

/-- Is a trace event one of the four delivery-channel sends? -/
def TraceEv.isSend : TraceEv → Bool
  | TraceEv.sendWriter => true
  | TraceEv.sendReader => true
  | TraceEv.sendPty => true
  | TraceEv.sendChild => true
  | _ => false

/-- The delivery-channel sends of a trace, in order. -/
def sends (tr : List TraceEv) : List TraceEv :=
  tr.filter TraceEv.isSend

/-- Is a trace event a rendered output line? -/
def TraceEv.isOutput : TraceEv → Bool
  | TraceEv.outputLine _ => true
  | _ => false

/-! ## Child-process wrapper (`WrappedSshChild`) -/

/-- A process exit status, as `portable_pty::ExitStatus`. -/
structure ExitStatus where
  code : Nat
deriving DecidableEq

/-- Embedding of `ExitStatus::with_exit_code`. -/
def ExitStatus.with_exit_code (code : Nat) : ExitStatus := ⟨code⟩

/-- Outcome of a non-blocking channel receive (`try_recv`): a value,
`Empty`, or any other error (disconnected or otherwise). -/
inductive TryRecvResult (α : Type) where
  | ok (a : α)
  | empty
  | err
deriving DecidableEq

/-- Outcome of a blocking channel receive (`recv`). -/
inductive RecvResult (α : Type) where
  | ok (a : α)
  | err
deriving DecidableEq

/-- State of `WrappedSshChild`: whether the exit-status channel has been
installed (`status.is_some()` — installed when the real child handle was
received and the async wait spawned) and the cached exit status. -/
structure WrappedSshChild where
  hasStatus : Bool
  exited : Option ExitStatus
deriving DecidableEq

/-- Embedding of `WrappedSshChild::check_connected`: when no status
channel is installed yet, poll the child-handle delivery channel; on a
value, spawn the async wait and install the status channel; on `Empty`
do nothing; on any other error cache an exit-code-1 status. `promo` is
the outcome this call's `rx.try_recv()` observes. -/
def WrappedSshChild.check_connected (self : WrappedSshChild)
    (promo : TryRecvResult Unit) : WrappedSshChild :=
  if self.hasStatus then self
  else
    match promo with
    | TryRecvResult.ok _ => { self with hasStatus := true }
    | TryRecvResult.empty => self
    | TryRecvResult.err => { self with exited := some (ExitStatus.with_exit_code 1) }

/-- Embedding of `WrappedSshChild::try_wait` (a `std::io::Result`, so the
`Except` error side is carried even though no path constructs it).
`promo` and `statusRecv` are the outcomes observed by this call's
non-blocking receives on the child-handle and status channels. -/
def WrappedSshChild.try_wait (self : WrappedSshChild) (promo : TryRecvResult Unit)
    (statusRecv : TryRecvResult ExitStatus) :
    Except String (Option ExitStatus) × WrappedSshChild :=
  match self.exited with
  | some st => (Except.ok (some st), self)
  | none =>
    let self := self.check_connected promo
    if self.hasStatus then
      match statusRecv with
      | TryRecvResult.ok st => (Except.ok (some st), { self with exited := some st })
      | TryRecvResult.empty => (Except.ok none, self)
      | TryRecvResult.err =>
        let st := ExitStatus.with_exit_code 1
        (Except.ok (some st), { self with exited := some st })
    else (Except.ok none, self)

/-- Embedding of `WrappedSshChild::wait`: blocking receives on the same
two channels, with every channel failure converted into a cached
exit-code-1 status returned as `Ok`. -/
def WrappedSshChild.wait (self : WrappedSshChild) (promo : RecvResult Unit)
    (statusRecv : RecvResult ExitStatus) :
    Except String ExitStatus × WrappedSshChild :=
  match self.exited with
  | some st => (Except.ok st, self)
  | none =>
    if self.hasStatus then
      match statusRecv with
      | RecvResult.ok st => (Except.ok st, { self with exited := some st })
      | RecvResult.err =>
        let st := ExitStatus.with_exit_code 1
        (Except.ok st, { self with exited := some st })
    else
      match promo with
      | RecvResult.err =>
        let st := ExitStatus.with_exit_code 1
        (Except.ok st, { self with exited := some st })
      | RecvResult.ok _ =>
        let self := { self with hasStatus := true }
        match statusRecv with
        | RecvResult.ok st => (Except.ok st, { self with exited := some st })
        | RecvResult.err =>
          let st := ExitStatus.with_exit_code 1
          (Except.ok st, { self with exited := some st })

/-! ## PTY wrapper (`WrappedSshPty` / `WrappedSshPtyInner`) -/

/-- A terminal geometry, as `portable_pty::PtySize`. -/
structure PtySize where
  rows : Nat
  cols : Nat
  pixel_width : Nat
  pixel_height : Nat
deriving DecidableEq

/-- Modelled from the spec: the real `SshPty` delivered at handoff.  The
spec treats it as an opaque PTY whose geometry operations always
succeed; it remembers the size it was last resized to and reports it
from `get_size`. -/
structure SshPtyM where
  size : PtySize
deriving DecidableEq

/-- Modelled from the spec: resizing the real PTY applies the geometry. -/
def SshPtyM.resize (_self : SshPtyM) (sz : PtySize) : SshPtyM := ⟨sz⟩

/-- Modelled from the spec: the real PTY reports its current geometry. -/
def SshPtyM.get_size (self : SshPtyM) : PtySize := self.size

/-- State of `WrappedSshPtyInner`: `connecting` holds the pending reader
(present until claimed) and the shared geometry cell's contents;
`connected` holds the pending reader and the real PTY.  The delivery
channel's contents are supplied per call as an `Option SshPtyM`. -/
inductive WrappedSshPtyInner where
  | connecting (reader : Bool) (size : PtySize)
  | connected (reader : Bool) (pty : SshPtyM)
deriving DecidableEq

/-- Actions performed on the real PTY by a promotion step, in order. -/
inductive PtyAction where
  | realResize (sz : PtySize)
  | promote
deriving DecidableEq

/-- Embedding of `WrappedSshPtyInner::check_connected`: in `Connecting`,
a non-blocking receive on the delivery channel (`offer`); when a real
PTY has arrived, resize it to the latched geometry and then become
`Connected` with it; otherwise do nothing.  The action list records the
order: the real resize strictly precedes the promotion. -/
def WrappedSshPtyInner.check_connected :
    WrappedSshPtyInner → Option SshPtyM → WrappedSshPtyInner × List PtyAction
  | WrappedSshPtyInner.connecting r sz, some pty =>
    (WrappedSshPtyInner.connected r (pty.resize sz),
      [PtyAction.realResize sz, PtyAction.promote])
  | WrappedSshPtyInner.connecting r sz, none => (WrappedSshPtyInner.connecting r sz, [])
  | WrappedSshPtyInner.connected r pty, _ => (WrappedSshPtyInner.connected r pty, [])

/-- Whether the wrapper still holds its unclaimed reader. -/
def WrappedSshPtyInner.readerPresent : WrappedSshPtyInner → Bool
  | WrappedSshPtyInner.connecting r _ => r
  | WrappedSshPtyInner.connected r _ => r

/-- Embedding of `WrappedSshPty::resize`: while `Connecting`, store the
new size into the shared geometry and attempt promotion; while
`Connected`, forward to the real PTY. -/
def WrappedSshPty.resize (st : WrappedSshPtyInner) (offer : Option SshPtyM)
    (new_size : PtySize) : WrappedSshPtyInner :=
  match st with
  | WrappedSshPtyInner.connecting r _ =>
    ((WrappedSshPtyInner.connecting r new_size).check_connected offer).1
  | WrappedSshPtyInner.connected r pty =>
    WrappedSshPtyInner.connected r (pty.resize new_size)

/-- Embedding of `WrappedSshPty::get_size`: while `Connecting`, read the
shared geometry, attempt promotion, and return the value read; while
`Connected`, query the real PTY. -/
def WrappedSshPty.get_size (st : WrappedSshPtyInner) (offer : Option SshPtyM) :
    PtySize × WrappedSshPtyInner :=
  match st with
  | WrappedSshPtyInner.connecting r sz =>
    (sz, ((WrappedSshPtyInner.connecting r sz).check_connected offer).1)
  | WrappedSshPtyInner.connected r pty =>
    (pty.get_size, WrappedSshPtyInner.connected r pty)

/-- Embedding of `WrappedSshPty::try_clone_reader`: attempt promotion,
then `take` the reader, which succeeds exactly when it is still
unclaimed and otherwise fails with "reader already taken". -/
def WrappedSshPty.try_clone_reader (st : WrappedSshPtyInner) (offer : Option SshPtyM) :
    Except String Unit × WrappedSshPtyInner :=
  match (st.check_connected offer).1 with
  | WrappedSshPtyInner.connecting true sz =>
    (Except.ok (), WrappedSshPtyInner.connecting false sz)
  | WrappedSshPtyInner.connecting false sz =>
    (Except.error "reader already taken", WrappedSshPtyInner.connecting false sz)
  | WrappedSshPtyInner.connected true pty =>
    (Except.ok (), WrappedSshPtyInner.connected false pty)
  | WrappedSshPtyInner.connected false pty =>
    (Except.error "reader already taken", WrappedSshPtyInner.connected false pty)

/-- One public operation on the PTY wrapper, carrying the delivery
channel outcome its internal promotion attempt observes. -/
inductive PtyOp where
  | opResize (offer : Option SshPtyM) (new_size : PtySize)
  | opGetSize (offer : Option SshPtyM)
  | opCloneReader (offer : Option SshPtyM)
deriving DecidableEq

/-- Run a sequence of operations on the wrapper, collecting the result of
every `try_clone_reader` call in order. -/
def runPtyOps : WrappedSshPtyInner → List PtyOp → WrappedSshPtyInner × List (Except String Unit)
  | st, [] => (st, [])
  | st, PtyOp.opResize offer n :: ops => runPtyOps (WrappedSshPty.resize st offer n) ops
  | st, PtyOp.opGetSize offer :: ops => runPtyOps (WrappedSshPty.get_size st offer).2 ops
  | st, PtyOp.opCloneReader offer :: ops =>
    ((runPtyOps (WrappedSshPty.try_clone_reader st offer).2 ops).1,
      (WrappedSshPty.try_clone_reader st offer).1
        :: (runPtyOps (WrappedSshPty.try_clone_reader st offer).2 ops).2)

/-- The number of `try_clone_reader` calls in an operation sequence. -/
def countClones : List PtyOp → Nat
  | [] => 0
  | PtyOp.opCloneReader _ :: ops => countClones ops + 1
  | PtyOp.opResize _ _ :: ops => countClones ops
  | PtyOp.opGetSize _ :: ops => countClones ops

/-- The expected `try_clone_reader` results for `n` calls starting from a
wrapper that still holds its reader: one success, then failures. -/
def cloneResultsExpected : Nat → List (Except String Unit)
  | 0 => []
  | n + 1 => Except.ok () :: List.replicate n (Except.error "reader already taken")

/-! ## Hot-swappable writer (`PtyWriter`) -/

/-- The behavior of an underlying boxed writer: what its `flush` call
returns (`std::io::Result<()>`, with the error rendered as a string). -/
structure WriterB where
  flushResult : Except String Unit

/-- State of `PtyWriter`: the writer it is currently bound to.  The
delivery channel is supplied per call as the outcome of the receive. -/
structure PtyWriter where
  writer : WriterB

/-- Embedding of `PtyWriter::flush`: flush the current writer; on
success done; on failure make one blocking receive on the delivery
channel (`recv`), and on receipt install the new writer and retry the
flush once against it, otherwise return the original failure. -/
def PtyWriter.flush (self : PtyWriter) (recv : RecvResult WriterB) :
    Except String Unit × PtyWriter :=
  match self.writer.flushResult with
  | Except.ok _ => (Except.ok (), self)
  | Except.error e =>
    match recv with
    | RecvResult.ok w => (w.flushResult, ⟨w⟩)
    | RecvResult.err => (Except.error e, self)

/-- Whether a `std::io::Result` (modelled as `Except`) is the `Ok`
variant. -/
def isOkResult {ε α : Type} : Except ε α → Bool
  | Except.ok _ => true
  | Except.error _ => false

/-! ## Theorems -/

/-- Splitting any character list on newlines yields at least one segment. -/
theorem splitNLChars_ne_nil (l : List Char) : splitNLChars l ≠ [] := by
  cases l with
  | nil => simp [splitNLChars]
  | cons c rest =>
    simp only [splitNLChars]
    split
    · simp
    · cases splitNLChars rest <;> simp

/-- Claim C10: for every prompt string, including the empty string,
splitting the text on newlines yields at least one segment, so the
extraction of the last segment as the line-editor prompt (the Rust
`pop().unwrap()`) always produces a value and never panics. -/
theorem editor_prompt_split_never_empty (p : String) :
    1 ≤ (splitNL p).length ∧ (editorPromptOf p).isSome = true := by
  have h : splitNL p ≠ [] := by
    simp [splitNL]
    exact splitNLChars_ne_nil p.data
  constructor
  · exact Nat.one_le_iff_ne_zero.mpr (by simpa using h)
  · simpa [editorPromptOf, List.getLast?_isSome] using h

/-- Claim C3, counterexample: a single wide character (one character,
two display columns) is masked by two placeholder glyphs, not one — the
placeholder count follows display columns, not the character count. -/
theorem highlight_line_wide_char_counterexample :
    ([(⟨2⟩ : Glyph)]).length = 1
    ∧ (PasswordPromptHost.highlight_line ⟨false⟩ [⟨2⟩] 1).1.length = 2
    ∧ ((PasswordPromptHost.highlight_line ⟨false⟩ [⟨2⟩] 1).1.length
        = ([(⟨2⟩ : Glyph)]).length → False) := by
  refine ⟨rfl, rfl, ?_⟩
  intro h
  simp [PasswordPromptHost.highlight_line, unicode_column_width] at h

/-- Claim C3, amended: with echo disabled, `highlight_line` returns
exactly `unicode_column_width line` placeholder elements (one per
display column of the input — equal to the character count only when
every character is single-width), every element is the placeholder
glyph, and the cursor display column is the placeholder's display width
times the cursor position. -/
theorem highlight_line_masks_per_column (line : List Glyph) (c : Nat) :
    (PasswordPromptHost.highlight_line ⟨false⟩ line c).1.length = unicode_column_width line
    ∧ (PasswordPromptHost.highlight_line ⟨false⟩ line c).2
        = unicode_column_width placeholder * c
    ∧ ∀ e ∈ (PasswordPromptHost.highlight_line ⟨false⟩ line c).1,
        e = OutputElement.text placeholder := by
  refine ⟨?_, rfl, ?_⟩
  · simp [PasswordPromptHost.highlight_line]
  · intro e he
    simp only [PasswordPromptHost.highlight_line, if_neg Bool.false_ne_true] at he
    exact List.eq_of_mem_replicate he

/-- Claim C7: a `resize` issued while the wrapper is `Connecting` latches
the new geometry; `get_size` returns it before promotion; promotion
resizes the real PTY to the latched geometry strictly before the state
becomes `Connected` (the action order is resize, then promote, and the
`Connected` state's PTY already carries the latched size); and
`get_size` returns the same geometry after promotion. -/
theorem resize_while_connecting_latched_and_applied (r : Bool) (sz0 new : PtySize)
    (p : SshPtyM) :
    WrappedSshPty.resize (WrappedSshPtyInner.connecting r sz0) none new
      = WrappedSshPtyInner.connecting r new
    ∧ (WrappedSshPty.get_size (WrappedSshPtyInner.connecting r new) none).1 = new
    ∧ (WrappedSshPtyInner.connecting r new).check_connected (some p)
      = (WrappedSshPtyInner.connected r ⟨new⟩,
          [PtyAction.realResize new, PtyAction.promote])
    ∧ (WrappedSshPty.get_size (WrappedSshPtyInner.connected r ⟨new⟩) none).1 = new
    ∧ WrappedSshPty.resize (WrappedSshPtyInner.connecting r sz0) (some p) new
      = WrappedSshPtyInner.connected r ⟨new⟩ :=
  ⟨rfl, rfl, rfl, rfl, rfl⟩

/-- Claim C8: when `flush` against the current writer fails, `PtyWriter`
makes one blocking receive on its delivery channel; on receipt it
installs the new writer and returns that writer's flush result (the one
retry); when the channel yields no writer, the original failure is
returned unchanged and the writer is not replaced. -/
theorem ptyWriter_flush_retry_once (w : WriterB) (e : String)
    (hw : w.flushResult = Except.error e) :
    (∀ nw, PtyWriter.flush ⟨w⟩ (RecvResult.ok nw) = (nw.flushResult, ⟨nw⟩))
    ∧ PtyWriter.flush ⟨w⟩ RecvResult.err = (Except.error e, ⟨w⟩) := by
  constructor
  · intro nw
    simp [PtyWriter.flush, hw]
  · simp [PtyWriter.flush, hw]

/-- Witness for C8 at a concrete broken writer. -/
theorem ptyWriter_flush_retry_once_witness :
    PtyWriter.flush ⟨⟨Except.error "broken pipe"⟩⟩ RecvResult.err
      = (Except.error "broken pipe", ⟨⟨Except.error "broken pipe"⟩⟩) :=
  (ptyWriter_flush_retry_once ⟨Except.error "broken pipe"⟩ "broken pipe" rfl).2

/-- Claim C9: `try_wait` and `wait` are total over the `Ok` side of
`std::io::Result`: for every wrapper state and every behaviour of the two
channels, neither ever returns `Err` — channel failures are converted
into a cached exit-code-1 status returned as `Ok`. -/
theorem child_wait_total_ok (s : WrappedSshChild) (p1 : TryRecvResult Unit)
    (s1 : TryRecvResult ExitStatus) (p2 : RecvResult Unit) (s2 : RecvResult ExitStatus) :
    isOkResult (WrappedSshChild.try_wait s p1 s1).1 = true
    ∧ isOkResult (WrappedSshChild.wait s p2 s2).1 = true := by
  obtain ⟨hs, he⟩ := s
  constructor
  · cases he <;> cases hs <;> cases p1 <;> cases s1 <;>
      simp [WrappedSshChild.try_wait, WrappedSshChild.check_connected, isOkResult]
  · cases he <;> cases hs <;> cases p2 <;> cases s2 <;>
      simp [WrappedSshChild.wait, isOkResult]

/-- Claim C2, counterexample: with no cached status and no status channel
installed, a non-`Empty` error on the child-handle delivery channel makes
that same `try_wait` call return `Ok(None)` ("still running"), not the
error-code termination — the exit-code-1 status is only cached for later
calls. -/
theorem try_wait_promo_chan_error_reports_running :
    WrappedSshChild.try_wait ⟨false, none⟩ TryRecvResult.err TryRecvResult.empty
      = (Except.ok none, ⟨false, some (ExitStatus.with_exit_code 1)⟩)
    ∧ ((WrappedSshChild.try_wait ⟨false, none⟩ TryRecvResult.err TryRecvResult.empty).1
        = Except.ok (some (ExitStatus.with_exit_code 1)) → False) := by
  refine ⟨rfl, ?_⟩
  intro h
  simp [WrappedSshChild.try_wait, WrappedSshChild.check_connected] at h

/-- Claim C2, amended: a channel error while receiving the exit status is
reported as an exit-code-1 termination by that same `try_wait` call and
cached; a channel error while receiving the real child handle is cached
as an exit-code-1 termination but that call itself still reports "still
running" (`Ok(None)`); and once a status is cached, every later call
returns it without touching either channel. -/
theorem try_wait_channel_error_cached (s : WrappedSshChild) (promo : TryRecvResult Unit)
    (sr : TryRecvResult ExitStatus) :
    (s.exited = none → s.hasStatus = true →
      WrappedSshChild.try_wait s promo TryRecvResult.err
        = (Except.ok (some (ExitStatus.with_exit_code 1)),
            { s with exited := some (ExitStatus.with_exit_code 1) }))
    ∧ (s.exited = none → s.hasStatus = false →
      WrappedSshChild.try_wait s TryRecvResult.err sr
        = (Except.ok none, { s with exited := some (ExitStatus.with_exit_code 1) }))
    ∧ (∀ st, s.exited = some st →
      WrappedSshChild.try_wait s promo sr = (Except.ok (some st), s)) := by
  obtain ⟨hs, he⟩ := s
  refine ⟨?_, ?_, ?_⟩
  · intro h1 h2
    simp only at h1 h2
    subst h1; subst h2
    cases promo <;> rfl
  · intro h1 h2
    simp only at h1 h2
    subst h1; subst h2
    rfl
  · intro st h1
    simp only at h1
    subst h1
    rfl

/-- Promotion does not touch the pending reader: it is carried across. -/
theorem check_connected_readerPresent (st : WrappedSshPtyInner) (offer : Option SshPtyM) :
    ((st.check_connected offer).1).readerPresent = st.readerPresent := by
  cases st <;> cases offer <;> rfl

/-- `resize` does not touch the pending reader. -/
theorem resize_readerPresent (st : WrappedSshPtyInner) (offer : Option SshPtyM)
    (n : PtySize) :
    (WrappedSshPty.resize st offer n).readerPresent = st.readerPresent := by
  cases st <;> cases offer <;> rfl

/-- `get_size` does not touch the pending reader. -/
theorem get_size_readerPresent (st : WrappedSshPtyInner) (offer : Option SshPtyM) :
    ((WrappedSshPty.get_size st offer).2).readerPresent = st.readerPresent := by
  cases st <;> cases offer <;> rfl

/-- While the reader is unclaimed, `try_clone_reader` succeeds and claims
it. -/
theorem try_clone_reader_present (st : WrappedSshPtyInner) (offer : Option SshPtyM)
    (h : st.readerPresent = true) :
    (WrappedSshPty.try_clone_reader st offer).1 = Except.ok ()
    ∧ ((WrappedSshPty.try_clone_reader st offer).2).readerPresent = false := by
  cases st <;> simp [WrappedSshPtyInner.readerPresent] at h <;> subst h <;>
    cases offer <;> exact ⟨rfl, rfl⟩

/-- Once the reader is claimed, `try_clone_reader` fails with
"reader already taken" and the reader stays claimed. -/
theorem try_clone_reader_absent (st : WrappedSshPtyInner) (offer : Option SshPtyM)
    (h : st.readerPresent = false) :
    (WrappedSshPty.try_clone_reader st offer).1 = Except.error "reader already taken"
    ∧ ((WrappedSshPty.try_clone_reader st offer).2).readerPresent = false := by
  cases st <;> simp [WrappedSshPtyInner.readerPresent] at h <;> subst h <;>
    cases offer <;> exact ⟨rfl, rfl⟩

/-- From a state whose reader is already claimed, every later
`try_clone_reader` in an operation sequence fails. -/
theorem runPtyOps_reader_absent (ops : List PtyOp) (st : WrappedSshPtyInner)
    (h : st.readerPresent = false) :
    (runPtyOps st ops).2
      = List.replicate (countClones ops) (Except.error "reader already taken") := by
  induction ops generalizing st with
  | nil => simp [runPtyOps, countClones]
  | cons op ops ih =>
    cases op with
    | opResize offer n =>
      simp only [runPtyOps, countClones]
      exact ih _ ((resize_readerPresent st offer n).trans h)
    | opGetSize offer =>
      simp only [runPtyOps, countClones]
      exact ih _ ((get_size_readerPresent st offer).trans h)
    | opCloneReader offer =>
      obtain ⟨h1, h2⟩ := try_clone_reader_absent st offer h
      simp only [runPtyOps, countClones, List.replicate_succ, h1]
      simp [ih _ h2]

/-- From a state whose reader is unclaimed, the `try_clone_reader`
results of an operation sequence are one success followed by failures. -/
theorem runPtyOps_reader_present (ops : List PtyOp) (st : WrappedSshPtyInner)
    (h : st.readerPresent = true) :
    (runPtyOps st ops).2 = cloneResultsExpected (countClones ops) := by
  induction ops generalizing st with
  | nil => simp [runPtyOps, countClones, cloneResultsExpected]
  | cons op ops ih =>
    cases op with
    | opResize offer n =>
      simp only [runPtyOps, countClones]
      exact ih _ ((resize_readerPresent st offer n).trans h)
    | opGetSize offer =>
      simp only [runPtyOps, countClones]
      exact ih _ ((get_size_readerPresent st offer).trans h)
    | opCloneReader offer =>
      obtain ⟨h1, h2⟩ := try_clone_reader_present st offer h
      simp only [runPtyOps, countClones, cloneResultsExpected, h1]
      simp [runPtyOps_reader_absent ops _ h2]

/-- Claim C6: starting from the wrapper built at spawn time (state
`Connecting` with its reader unclaimed), for every sequence of
operations — with promotion offers arriving at any point, so the clone
calls may fall before or after promotion — `try_clone_reader` succeeds
on exactly the first call and fails with "reader already taken" on
every subsequent call. -/
theorem try_clone_reader_exactly_once (sz : PtySize) (ops : List PtyOp) :
    (runPtyOps (WrappedSshPtyInner.connecting true sz) ops).2
      = cloneResultsExpected (countClones ops) :=
  runPtyOps_reader_present ops _ rfl

/-- Output lines are not delivery sends. -/
theorem sendless_of_output (l : List TraceEv) (h : ∀ t ∈ l, t.isOutput = true) :
    ∀ t ∈ l, t.isSend = false := by
  intro t ht
  have := h t ht
  cases t <;> simp_all [TraceEv.isOutput, TraceEv.isSend]

/-- Filtering the sends distributes over concatenation. -/
theorem sends_append (a b : List TraceEv) : sends (a ++ b) = sends a ++ sends b :=
  List.filter_append _ _

/-- Case equation: a verify read error aborts the run. -/
theorem handleVerify_err (m e : String) (rest : OrchOutput) :
    handleVerify ⟨m, ReadResult.err e⟩ rest
      = ⟨Except.error e, [TraceEv.outputLine m], false, false⟩ := rfl

/-- Case equation: a cancelled verify read answers "no" and continues. -/
theorem handleVerify_cancelled (m : String) (rest : OrchOutput) :
    handleVerify ⟨m, ReadResult.cancelled⟩ rest
      = rest.prepend [TraceEv.outputLine m, TraceEv.verifyAnswer false] := rfl

/-- Case equation: an entered verify line answers its yes/no reading and
continues. -/
theorem handleVerify_line (m l : String) (rest : OrchOutput) :
    handleVerify ⟨m, ReadResult.line l⟩ rest
      = rest.prepend [TraceEv.outputLine m, TraceEv.verifyAnswer (yesNo l)] := rfl

/-- Case equation: a failing prompt loop aborts the run with its error. -/
theorem handleAuthRes_error (a : AuthEvt) (ts : List TraceEv) (e : String)
    (rest : OrchOutput) :
    handleAuthRes a ts (Except.error e) rest
      = ⟨Except.error e, authHeader a ++ ts, false, false⟩ := rfl

/-- Case equation: a successful prompt loop sends its answers and
continues. -/
theorem handleAuthRes_ok (a : AuthEvt) (ts : List TraceEv) (answers : List String)
    (rest : OrchOutput) :
    handleAuthRes a ts (Except.ok answers) rest
      = rest.prepend (authHeader a ++ ts ++ [TraceEv.authAnswer answers]) := rfl

/-- A list without sends filters to the empty send list. -/
theorem sends_nil_of_sendless (ts : List TraceEv) (hts : ∀ t ∈ ts, t.isSend = false) :
    sends ts = [] := by
  induction ts with
  | nil => rfl
  | cons t ts ih =>
    have h1 := hts t (List.mem_cons_self t ts)
    simp only [sends, List.filter_cons, h1]
    exact ih fun u hu => hts u (List.mem_cons_of_mem t hu)

/-- The lines rendered before an authentication round's prompts are all
output lines. -/
theorem authHeader_output (a : AuthEvt) : ∀ t ∈ authHeader a, t.isOutput = true := by
  intro t ht
  simp only [authHeader, List.mem_append] at ht
  rcases ht with ht | ht <;> (split at ht <;> simp_all [TraceEv.isOutput])

/-- The lines rendered for one prompt are all output lines. -/
theorem promptOutputs_output (p : Prompt) : ∀ t ∈ promptOutputs p, t.isOutput = true := by
  intro t ht
  simp only [promptOutputs, List.mem_map] at ht
  obtain ⟨s, _, rfl⟩ := ht
  rfl

/-- Everything the prompt loop renders is an output line. -/
theorem runPrompts_fst_output (ps : List Prompt) (rs : List ReadResult) :
    ∀ t ∈ (runPrompts ps rs).1, t.isOutput = true := by
  induction ps generalizing rs with
  | nil => simp [runPrompts]
  | cons p ps ih =>
    cases rs with
    | nil => simpa [runPrompts] using promptOutputs_output p
    | cons r rs =>
      cases r with
      | err e => simpa [runPrompts] using promptOutputs_output p
      | cancelled => simpa [runPrompts] using promptOutputs_output p
      | line l =>
        intro t ht
        simp only [runPrompts, List.mem_append] at ht
        rcases ht with ht | ht
        · exact promptOutputs_output p t ht
        · exact ih rs t ht

/-- Prepending actions leaves the run's result unchanged. -/
theorem prepend_result (ts : List TraceEv) (o : OrchOutput) :
    (OrchOutput.prepend ts o).result = o.result := rfl

/-- Prepending actions leaves the authenticated flag unchanged. -/
theorem prepend_reachedAuth (ts : List TraceEv) (o : OrchOutput) :
    (OrchOutput.prepend ts o).reachedAuth = o.reachedAuth := rfl

/-- Prepending actions leaves the exhaustion flag unchanged. -/
theorem prepend_exhausted (ts : List TraceEv) (o : OrchOutput) :
    (OrchOutput.prepend ts o).exhausted = o.exhausted := rfl

/-- Prepending send-free actions leaves the delivery sends unchanged. -/
theorem prepend_sends (ts : List TraceEv) (o : OrchOutput)
    (hts : ∀ t ∈ ts, t.isSend = false) :
    sends (OrchOutput.prepend ts o).trace = sends o.trace := by
  show sends (ts ++ o.trace) = sends o.trace
  rw [sends_append, sends_nil_of_sendless ts hts]
  rfl

/-- Claim C1, counterexample: when the event stream ends at once (no
events, hence no `Authenticated`), `connect_ssh_session` returns success
(`Ok(())`), not an authentication-exhausted error. -/
theorem runEvents_empty_stream_succeeds :
    (runEvents true []).result = Except.ok ()
    ∧ (runEvents true []).reachedAuth = false
    ∧ (runEvents true []).exhausted = true :=
  ⟨rfl, rfl, rfl⟩

/-- Claim C1, amended: when the event stream ends without reaching
`Authenticated`, `connect_ssh_session` returns success (`Ok(())`) with
nothing delivered on any of the four channels — not an
authentication-exhausted error.  (The interactive variant
`ssh_connect_with_ui` does fail with "unable to authenticate session" in
that situation; `connect_ssh_session` does not.) -/
theorem runEvents_exhausted_returns_ok (ptyOk : Bool) (evs : List SessionEvent)
    (h : (runEvents ptyOk evs).exhausted = true) :
    (runEvents ptyOk evs).result = Except.ok ()
    ∧ (runEvents ptyOk evs).reachedAuth = false
    ∧ sends (runEvents ptyOk evs).trace = [] := by
  revert h
  induction evs with
  | nil => exact fun _ => ⟨rfl, rfl, rfl⟩
  | cons ev evs ih =>
    intro h
    cases ev with
    | banner b =>
      cases b with
      | none =>
        simp only [runEvents] at h ⊢
        exact ih h
      | some s =>
        simp only [runEvents] at h ⊢
        rw [prepend_exhausted] at h
        obtain ⟨h1, h2, h3⟩ := ih h
        exact ⟨h1, h2, by rw [prepend_sends _ _ (by simp [TraceEv.isSend])]; exact h3⟩
    | hostVerify v =>
      obtain ⟨m, r⟩ := v
      cases r with
      | err e =>
        simp only [runEvents, handleVerify_err] at h
        simp at h
      | cancelled =>
        simp only [runEvents, handleVerify_cancelled] at h ⊢
        rw [prepend_exhausted] at h
        obtain ⟨h1, h2, h3⟩ := ih h
        exact ⟨h1, h2, by rw [prepend_sends _ _ (by simp [TraceEv.isSend])]; exact h3⟩
      | line l =>
        simp only [runEvents, handleVerify_line] at h ⊢
        rw [prepend_exhausted] at h
        obtain ⟨h1, h2, h3⟩ := ih h
        exact ⟨h1, h2, by rw [prepend_sends _ _ (by simp [TraceEv.isSend])]; exact h3⟩
    | authenticate a =>
      rcases hrp : runPrompts a.prompts a.responses with ⟨ts, res⟩
      have hts : ∀ t ∈ ts, t.isOutput = true := by
        have h0 := runPrompts_fst_output a.prompts a.responses
        rw [hrp] at h0
        exact h0
      cases res with
      | error e =>
        simp only [runEvents, handleAuth, hrp, handleAuthRes_error] at h
        simp at h
      | ok answers =>
        simp only [runEvents, handleAuth, hrp, handleAuthRes_ok] at h ⊢
        rw [prepend_exhausted] at h
        obtain ⟨h1, h2, h3⟩ := ih h
        refine ⟨h1, h2, ?_⟩
        rw [prepend_sends]
        · exact h3
        · intro t ht
          simp only [List.append_assoc, List.mem_append] at ht
          rcases ht with ht | ht | ht
          · exact sendless_of_output _ (authHeader_output a) t ht
          · exact sendless_of_output _ hts t ht
          · simp only [List.mem_singleton] at ht
            subst ht
            rfl
    | error msg =>
      simp only [runEvents] at h ⊢
      rw [prepend_exhausted] at h
      obtain ⟨h1, h2, h3⟩ := ih h
      exact ⟨h1, h2, by rw [prepend_sends _ _ (by simp [TraceEv.isSend])]; exact h3⟩
    | authenticated =>
      simp only [runEvents] at h
      cases ptyOk <;> simp at h

/-- Witness for C1's amended claim on a concrete exhausted stream. -/
theorem runEvents_exhausted_returns_ok_witness :
    (runEvents true [SessionEvent.banner (some "hi")]).result = Except.ok ()
    ∧ (runEvents true [SessionEvent.banner (some "hi")]).reachedAuth = false
    ∧ sends (runEvents true [SessionEvent.banner (some "hi")]).trace = [] :=
  runEvents_exhausted_returns_ok true [SessionEvent.banner (some "hi")] rfl

/-- Claim C4: every run that reaches `Authenticated` with a succeeding
PTY request returns success, and its delivery sends are exactly one per
channel, in the order writer, reader, PTY handle, child handle. -/
theorem runEvents_authenticated_delivers_in_order (evs : List SessionEvent)
    (h : (runEvents true evs).reachedAuth = true) :
    (runEvents true evs).result = Except.ok ()
    ∧ sends (runEvents true evs).trace
      = [TraceEv.sendWriter, TraceEv.sendReader, TraceEv.sendPty, TraceEv.sendChild] := by
  revert h
  induction evs with
  | nil =>
    intro h
    simp [runEvents] at h
  | cons ev evs ih =>
    intro h
    cases ev with
    | banner b =>
      cases b with
      | none =>
        simp only [runEvents] at h ⊢
        exact ih h
      | some s =>
        simp only [runEvents] at h ⊢
        rw [prepend_reachedAuth] at h
        obtain ⟨h1, h2⟩ := ih h
        exact ⟨h1, by rw [prepend_sends _ _ (by simp [TraceEv.isSend])]; exact h2⟩
    | hostVerify v =>
      obtain ⟨m, r⟩ := v
      cases r with
      | err e =>
        simp only [runEvents, handleVerify_err] at h
        simp at h
      | cancelled =>
        simp only [runEvents, handleVerify_cancelled] at h ⊢
        rw [prepend_reachedAuth] at h
        obtain ⟨h1, h2⟩ := ih h
        exact ⟨h1, by rw [prepend_sends _ _ (by simp [TraceEv.isSend])]; exact h2⟩
      | line l =>
        simp only [runEvents, handleVerify_line] at h ⊢
        rw [prepend_reachedAuth] at h
        obtain ⟨h1, h2⟩ := ih h
        exact ⟨h1, by rw [prepend_sends _ _ (by simp [TraceEv.isSend])]; exact h2⟩
    | authenticate a =>
      rcases hrp : runPrompts a.prompts a.responses with ⟨ts, res⟩
      have hts : ∀ t ∈ ts, t.isOutput = true := by
        have h0 := runPrompts_fst_output a.prompts a.responses
        rw [hrp] at h0
        exact h0
      cases res with
      | error e =>
        simp only [runEvents, handleAuth, hrp, handleAuthRes_error] at h
        simp at h
      | ok answers =>
        simp only [runEvents, handleAuth, hrp, handleAuthRes_ok] at h ⊢
        rw [prepend_reachedAuth] at h
        obtain ⟨h1, h2⟩ := ih h
        refine ⟨h1, ?_⟩
        rw [prepend_sends]
        · exact h2
        · intro t ht
          simp only [List.append_assoc, List.mem_append] at ht
          rcases ht with ht | ht | ht
          · exact sendless_of_output _ (authHeader_output a) t ht
          · exact sendless_of_output _ hts t ht
          · simp only [List.mem_singleton] at ht
            subst ht
            rfl
    | error msg =>
      simp only [runEvents] at h ⊢
      rw [prepend_reachedAuth] at h
      obtain ⟨h1, h2⟩ := ih h
      exact ⟨h1, by rw [prepend_sends _ _ (by simp [TraceEv.isSend])]; exact h2⟩
    | authenticated =>
      simp [runEvents, sends, TraceEv.isSend]

/-- Witness for C4 on the spec's end-to-end event stream. -/
theorem runEvents_authenticated_delivers_in_order_witness :
    (runEvents true [SessionEvent.banner (some "hi"),
        SessionEvent.hostVerify ⟨"fingerprint", ReadResult.line "y"⟩,
        SessionEvent.authenticate ⟨"", "", [⟨"Password:", false⟩], [ReadResult.line "secret"]⟩,
        SessionEvent.authenticated]).result = Except.ok ()
    ∧ sends (runEvents true [SessionEvent.banner (some "hi"),
        SessionEvent.hostVerify ⟨"fingerprint", ReadResult.line "y"⟩,
        SessionEvent.authenticate ⟨"", "", [⟨"Password:", false⟩], [ReadResult.line "secret"]⟩,
        SessionEvent.authenticated]).trace
      = [TraceEv.sendWriter, TraceEv.sendReader, TraceEv.sendPty, TraceEv.sendChild] :=
  runEvents_authenticated_delivers_in_order
    [SessionEvent.banner (some "hi"),
      SessionEvent.hostVerify ⟨"fingerprint", ReadResult.line "y"⟩,
      SessionEvent.authenticate ⟨"", "", [⟨"Password:", false⟩], [ReadResult.line "secret"]⟩,
      SessionEvent.authenticated] rfl

/-- When some prompt's read is cancelled after only entered lines, the
prompt loop fails with the cancellation error. -/
theorem runPrompts_cancelled (ps : List Prompt) (rs : List ReadResult) (i : Nat)
    (hi : i < ps.length) (hc : rs[i]? = some ReadResult.cancelled)
    (hl : ∀ j, j < i → ∃ s, rs[j]? = some (ReadResult.line s)) :
    (runPrompts ps rs).2 = Except.error "Authentication was cancelled" := by
  induction ps generalizing rs i with
  | nil => simp at hi
  | cons p ps ih =>
    cases i with
    | zero =>
      cases rs with
      | nil => simp at hc
      | cons r rs =>
        simp only [List.getElem?_cons_zero, Option.some_inj] at hc
        subst hc
        rfl
    | succ k =>
      obtain ⟨s, hs⟩ := hl 0 (Nat.succ_pos k)
      cases rs with
      | nil => simp at hs
      | cons r rs =>
        simp only [List.getElem?_cons_zero, Option.some_inj] at hs
        subst hs
        have hk := ih rs k (Nat.lt_of_succ_lt_succ hi) (by simpa using hc)
          (fun j hj => by simpa using hl (j + 1) (Nat.succ_lt_succ hj))
        simp only [runPrompts]
        rw [hk]
        rfl

/-- Claim C5: when any prompt of an `Authenticate` event yields no answer
(the read is cancelled) after the earlier prompts were answered, the
orchestrator aborts the whole attempt with the cancellation error and the
event's answer callback is never invoked — no partial answer set is ever
sent. -/
theorem runEvents_cancelled_prompt_aborts (ptyOk : Bool) (a : AuthEvt)
    (evs : List SessionEvent) (i : Nat)
    (hi : i < a.prompts.length)
    (hc : a.responses[i]? = some ReadResult.cancelled)
    (hl : ∀ j, j < i → ∃ s, a.responses[j]? = some (ReadResult.line s)) :
    (runEvents ptyOk (SessionEvent.authenticate a :: evs)).result
      = Except.error "Authentication was cancelled"
    ∧ ∀ ans, TraceEv.authAnswer ans
        ∉ (runEvents ptyOk (SessionEvent.authenticate a :: evs)).trace := by
  rcases hrp : runPrompts a.prompts a.responses with ⟨ts, res⟩
  have hres : res = Except.error "Authentication was cancelled" := by
    have h0 := runPrompts_cancelled a.prompts a.responses i hi hc hl
    rw [hrp] at h0
    exact h0
  subst hres
  have hts : ∀ t ∈ ts, t.isOutput = true := by
    have h0 := runPrompts_fst_output a.prompts a.responses
    rw [hrp] at h0
    exact h0
  constructor
  · simp only [runEvents, handleAuth, hrp, handleAuthRes_error]
  · intro ans hmem
    simp only [runEvents, handleAuth, hrp, handleAuthRes_error, List.mem_append] at hmem
    rcases hmem with hm | hm
    · have h1 := authHeader_output a _ hm
      simp [TraceEv.isOutput] at h1
    · have h1 := hts _ hm
      simp [TraceEv.isOutput] at h1

/-- Witness for C5: a single masked password prompt whose read is
cancelled. -/
theorem runEvents_cancelled_prompt_aborts_witness :
    (runEvents true [SessionEvent.authenticate
        ⟨"", "", [⟨"Password:", false⟩], [ReadResult.cancelled]⟩]).result
      = Except.error "Authentication was cancelled"
    ∧ ∀ ans, TraceEv.authAnswer ans
        ∉ (runEvents true [SessionEvent.authenticate
            ⟨"", "", [⟨"Password:", false⟩], [ReadResult.cancelled]⟩]).trace :=
  runEvents_cancelled_prompt_aborts true
    ⟨"", "", [⟨"Password:", false⟩], [ReadResult.cancelled]⟩ [] 0
    (by decide) rfl (fun j hj => absurd hj (Nat.not_lt_zero j))

end Mux
